import Mathlib

/-!
Verification of the pptx-converter job orchestration engine.

Shallow embedding of the source files under app/: models.py (data model),
jobs.py (job registry and admission gate), converter.py (LibreOffice
adapter), splitter.py (PDF splitter adapter), pipeline.py (conversion
pipeline orchestrator) and api.py (HTTP endpoints).

Conventions:
* Python strings are Lean `String`s; a slice such as str[:500] is
  `List.take 500` on the character list.
* datetime.utcnow() timestamps are abstracted as naturals supplied by a
  logical clock.
* The in-memory dict JobManager._jobs is a function `String → Option Job`.
* The S3 client, the LibreOffice subprocess and the pypdf reader are
  external collaborators; their behaviour during one pipeline run is an
  explicit environment (`Env`, `ProcResult`, `PdfRead`).
* pydantic (v2, defaults) raises ValidationError when a required field is
  not passed to a model constructor, silently ignores unknown keyword
  arguments, and raises AttributeError when an undeclared attribute of a
  model instance is read.  All three behaviours are modelled explicitly.
* The Python identifier output_prefix is rendered `output_root` in Lean
  names (same string value, only the Lean name differs).
-/

/-- app/models.py JobStatus. -/
inductive JobStatus where
  | queued
  | running
  | succeeded
  | failed
deriving DecidableEq, Repr

/-- app/models.py Job (internal job state).  Field `output_root` models
the source field output_prefix; timestamps are abstract naturals. -/
structure Job where
  job_id : String
  tenant_id : String
  status : JobStatus
  input_bucket : String
  input_key : String
  output_bucket : String
  output_root : String
  created_at : Nat := 0
  started_at : Option Nat := none
  completed_at : Option Nat := none
  error_code : Option String := none
  error_message : Option String := none
  page_count : Option Nat := none
deriving DecidableEq, Repr

/-- app/models.py S3Ref. -/
structure S3Ref where
  bucket : String
  key : String
deriving DecidableEq, Repr

/-- app/models.py PageInfo (one entry of the success manifest). -/
structure PageInfo where
  page : Nat
  key : String
deriving DecidableEq, Repr

/-- app/models.py SuccessManifest and FailureManifest, as one tagged type
keyed by the status discriminator. -/
inductive Manifest where
  | success (jobId userId : String) (pageCount : Nat) (pages : List PageInfo)
  | failure (jobId userId : String) (errorCode errorMessage : String)
deriving DecidableEq, Repr

/-- The argument tuple of one JobManager.update_job_status call
(jobs.py). -/
structure StatusCall where
  status : JobStatus
  errorCode : Option String := none
  errorMessage : Option String := none
  pageCount : Option Nat := none
deriving DecidableEq, Repr

/-- JobManager._jobs : dict[str, Job], as a lookup function. -/
def JobStore : Type := String → Option Job

/-- jobs.py JobManager.update_job_status.  Mirrors the source exactly: no
transition validation; `if error_code:` and `if error_message:` are
Python truthiness tests, so None and the empty string are both skipped;
page_count is compared against None only.  `now` stands for
datetime.utcnow(). -/
def update_job_status (st : JobStore) (job_id : String) (c : StatusCall)
    (now : Nat) : JobStore × Option Job :=
  match st job_id with
  | none => (st, none)
  | some job =>
    let job1 := { job with status := c.status }
    let job2 :=
      if c.status = .running then { job1 with started_at := some now }
      else if c.status = .succeeded ∨ c.status = .failed then
        { job1 with completed_at := some now }
      else job1
    let job3 :=
      match c.errorCode with
      | some s => if s = "" then job2 else { job2 with error_code := some s }
      | none => job2
    let job4 :=
      match c.errorMessage with
      | some s => if s = "" then job3 else { job3 with error_message := some s }
      | none => job3
    let job5 :=
      match c.pageCount with
      | some n => { job4 with page_count := some n }
      | none => job4
    (fun k => if k = job_id then some job5 else st k, some job5)

/-- Apply a sequence of update_job_status calls for one job, the logical
clock advancing by one per call. -/
def applyCalls (st : JobStore) (job_id : String) (now : Nat) :
    List StatusCall → JobStore
  | [] => st
  | c :: cs => applyCalls (update_job_status st job_id c now).1 job_id (now + 1) cs

/-- The stored status of a job after the first `k` calls of a call
sequence have been applied. -/
def statusAfter (st : JobStore) (job_id : String) (calls : List StatusCall)
    (k : Nat) : Option JobStatus :=
  Option.map Job.status (applyCalls st job_id 0 (calls.take k) job_id)

/-- The keyword arguments of one Job(...) constructor call; `none` marks
a field that is not passed.  `extra` records keyword arguments that are
not declared fields of Job (pydantic ignores them). -/
structure JobKwargs where
  job_id : Option String := none
  tenant_id : Option String := none
  status : Option JobStatus := none
  input_bucket : Option String := none
  input_key : Option String := none
  output_bucket : Option String := none
  output_root : Option String := none
  extra : List (String × String) := []

/-- The required fields of Job that a constructor call leaves unset;
pydantic reports exactly these in its ValidationError.  Every Job field
without a default in models.py is listed, in declaration order. -/
def missingJobFields (k : JobKwargs) : List String :=
  (if k.job_id.isNone then ["job_id"] else []) ++
  (if k.tenant_id.isNone then ["tenant_id"] else []) ++
  (if k.status.isNone then ["status"] else []) ++
  (if k.input_bucket.isNone then ["input_bucket"] else []) ++
  (if k.input_key.isNone then ["input_key"] else []) ++
  (if k.output_bucket.isNone then ["output_bucket"] else []) ++
  (if k.output_root.isNone then ["output_prefix"] else [])

/-- Python exceptions surfaced by the embedded code paths. -/
inductive PyErr where
  | attributeError (attr : String)
  | validationError (missingFields : List String)
deriving DecidableEq, Repr

/-- pydantic construction of a Job: every declared field without a
default must be passed, unknown keyword arguments are ignored. -/
def pydanticJob (k : JobKwargs) : Except PyErr Job :=
  match k.job_id, k.tenant_id, k.status, k.input_bucket, k.input_key,
      k.output_bucket, k.output_root with
  | some jid, some tid, some s, some ib, some ik, some ob, some oroot =>
    .ok { job_id := jid, tenant_id := tid, status := s, input_bucket := ib,
          input_key := ik, output_bucket := ob, output_root := oroot }
  | _, _, _, _, _, _, _ => .error (.validationError (missingJobFields k))

/-- jobs.py JobManager.create_job.  If the id exists the stored record is
returned unchanged; otherwise the source constructs
Job(job_id=.., tenant_id=.., user_id=.., status=QUEUED, input_key=..,
output_prefix=..) — passing the undeclared keyword user_id and omitting
the required fields input_bucket and output_bucket. -/
def create_job (st : JobStore) (job_id tenant_id user_id input_key
    output_root : String) : JobStore × Except PyErr Job :=
  match st job_id with
  | some job => (st, .ok job)
  | none =>
    let kw : JobKwargs :=
      { job_id := some job_id
        tenant_id := some tenant_id
        status := some .queued
        input_key := some input_key
        output_root := some output_root
        extra := [("user_id", user_id)] }
    match pydanticJob kw with
    | .ok job => (fun k => if k = job_id then some job else st k, .ok job)
    | .error e => (st, .error e)

/-- Behaviour of one LibreOffice subprocess invocation (converter.py):
either the timeout fires, or the process exits with a return code and
stderr text; `statErr` is `some msg` when the expected output PDF is
missing and the final stat call raises an OSError whose str is msg. -/
inductive ProcResult where
  | timeout
  | exited (returncode : Int) (stderrText : String) (statErr : Option String)
deriving DecidableEq, Repr

/-- Exceptions flowing through the pipeline: the two declared adapter
error kinds with their code and message, and any other Exception carrying
its str. -/
inductive Exc where
  | conversionError (code message : String)
  | splitterError (code message : String)
  | other (message : String)
deriving DecidableEq, Repr

/-- converter.py stderr excerpt, as written in the source:
stderr_text[:500] if the text is longer than 500 characters, else the
whole text. -/
def stderrExcerpt (s : String) : String :=
  if s.length > 500 then (s.data.take 500).asString else s

/-- Result of LibreOfficeConverter.convert: whether process.kill() ran,
and the returned path (elided to Unit) or the raised exception. -/
structure ConvOutcome where
  killed : Bool
  result : Except Exc Unit
deriving Repr

/-- converter.py LibreOfficeConverter.convert on a given subprocess
behaviour, with the configured timeout in seconds.  On timeout the child
is killed and CONVERSION_TIMEOUT raised; on nonzero exit
CONVERSION_FAILED is raised with the stderr excerpt; on zero exit the
expected output path is returned unless the stat call on it raises. -/
def converter_convert (timeoutSeconds : Nat) : ProcResult → ConvOutcome
  | .timeout =>
    { killed := true,
      result := .error (.conversionError "CONVERSION_TIMEOUT"
        ("Conversion timed out after " ++ toString timeoutSeconds ++ " seconds")) }
  | .exited rc stderrText statErr =>
    if rc ≠ 0 then
      { killed := false,
        result := .error (.conversionError "CONVERSION_FAILED"
          ("LibreOffice exited with code " ++ toString rc ++ ": " ++
            stderrExcerpt stderrText)) }
    else
      match statErr with
      | some m => { killed := false, result := .error (.other m) }
      | none => { killed := false, result := .ok () }

/-- What pypdf sees when splitter.py reads the rendered PDF: either
PdfReader itself raises (str of the error being message), or the document
has `n` pages and the per-page write loop either succeeds throughout or
raises at some page. -/
inductive PdfRead where
  | readError (message : String)
  | pages (n : Nat) (writeError : Option String)
deriving DecidableEq, Repr

/-- Python format with the 04d specifier: decimal digits left-padded with
zeros to a minimum width of four. -/
def pad4 (n : Nat) : String :=
  let s := toString n
  if s.length < 4 then String.mk (List.replicate (4 - s.length) '0') ++ s else s

/-- splitter.py PdfSplitter.split.  EMPTY_PDF for zero pages is re-raised
as is; every other failure is wrapped into SPLIT_FAILED; on success the
page count and the ordered page file names (0001.pdf, 0002.pdf, ...) are
returned — in particular the returned list has exactly `n` entries. -/
def splitter_split : PdfRead → Except Exc (Nat × List String)
  | .readError m =>
    .error (.splitterError "SPLIT_FAILED" ("Failed to split PDF: " ++ m))
  | .pages n writeError =>
    if n = 0 then .error (.splitterError "EMPTY_PDF" "PDF has no pages")
    else
      match writeError with
      | some m => .error (.splitterError "SPLIT_FAILED" ("Failed to split PDF: " ++ m))
      | none => .ok (n, (List.range n).map (fun i => pad4 (i + 1) ++ ".pdf"))

/-- Externally visible effects of one pipeline run, in program order. -/
inductive Event where
  | download (bucket key : String)
  | render
  | killProc
  | split
  | uploadPage (bucket key : String)
  | uploadManifest (bucket key : String) (m : Manifest) (ok : Bool)
  | statusUpdate (c : StatusCall)
deriving DecidableEq, Repr

/-- The configured limits used by the pipeline (config.py Settings). -/
structure Config where
  max_input_size_mb : Nat
  conversion_timeout_seconds : Nat
deriving Repr

/-- The collaborators' behaviour during one pipeline run: `none` for an
S3 call means it returns, `some msg` that it raises an Exception whose
str is msg.  boto3 never raises the adapters' declared error kinds. -/
structure Env where
  downloadErr : Option String
  inputSizeBytes : Nat
  proc : ProcResult
  pdf : PdfRead
  pageUploadErr : Nat → Option String
  successManifestErr : Option String
  failureManifestErr : Option String

/-- One-decimal rendering of sizeBytes/2^20 used in the FILE_TOO_LARGE
message.  The exact decimal formatting of the Python float is abstracted
as round-half-up on tenths; no claim depends on this string. -/
def formatMB1 (sizeBytes : Nat) : String :=
  let tenths := (sizeBytes * 10 + 524288) / 1048576
  toString (tenths / 10) ++ "." ++ toString (tenths % 10)

/-- The FILE_TOO_LARGE message built in pipeline.py. -/
def fileTooLargeMsg (sizeBytes maxMB : Nat) : String :=
  "Input file is " ++ formatMB1 sizeBytes ++ "MB, max is " ++ toString maxMB ++ "MB"

/-- pipeline.py page S3 key for 1-based page number p: the destination
output_prefix followed by pages/, the zero-padded number, and .pdf. -/
def pageKey (job : Job) (p : Nat) : String :=
  job.output_root ++ "pages/" ++ pad4 p ++ ".pdf"

/-- Step D upload loop of pipeline.py: `k` pages remaining, `i` pages
already uploaded; returns the upload events performed and either the
accumulated PageInfo list or the first raised exception. -/
def uploadPages (env : Env) (job : Job) :
    Nat → Nat → List Event × Except Exc (List PageInfo)
  | 0, _ => ([], .ok [])
  | k + 1, i =>
    let key := pageKey job (i + 1)
    match env.pageUploadErr i with
    | some m => ([.uploadPage job.output_bucket key], .error (.other m))
    | none =>
      let r := uploadPages env job k (i + 1)
      (.uploadPage job.output_bucket key :: r.1,
        Except.map (fun ps => { page := i + 1, key := key } :: ps) r.2)

/-- Steps D to the SUCCEEDED update of ConversionPipeline.run, entered
with the page count and page path list the splitter returned: upload
every page, build and upload the success manifest (pageCount is the
splitter's count, pages the accumulated PageInfo list), then call
update_job_status(SUCCEEDED, page_count).  An exception from any upload
leaves the block. -/
def afterSplit (env : Env) (job : Job) (n : Nat) (paths : List String) :
    List Event × Option Exc :=
  let up := uploadPages env job paths.length 0
  match up.2 with
  | .error e => (up.1, some e)
  | .ok pageInfos =>
    let manifest := Manifest.success job.job_id job.tenant_id n pageInfos
    let mkey := job.output_root ++ "manifest.json"
    match env.successManifestErr with
    | some m =>
      (up.1 ++ [Event.uploadManifest job.output_bucket mkey manifest false],
        some (.other m))
    | none =>
      (up.1 ++
        [Event.uploadManifest job.output_bucket mkey manifest true,
         Event.statusUpdate { status := .succeeded, pageCount := some n }],
        none)

/-- Step C onwards of ConversionPipeline.run: split the rendered PDF and
continue with the uploads. -/
def afterConvert (env : Env) (job : Job) : List Event × Option Exc :=
  match splitter_split env.pdf with
  | .error e => ([Event.split], some e)
  | .ok (n, paths) =>
    let t := afterSplit env job n paths
    (Event.split :: t.1, t.2)

/-- The try block of ConversionPipeline.run (pipeline.py): download, size
check against max_input_size_mb (the source's float comparison is exact,
so it equals this comparison of byte counts), convert, split, page
uploads, success manifest, SUCCEEDED status update.  Returns the events
performed in program order and the exception leaving the block, if
any. -/
def runBody (cfg : Config) (env : Env) (job : Job) : List Event × Option Exc :=
  let dl := Event.download job.input_bucket job.input_key
  match env.downloadErr with
  | some m => ([dl], some (.other m))
  | none =>
    if env.inputSizeBytes > cfg.max_input_size_mb * 1048576 then
      ([dl], some (.conversionError "FILE_TOO_LARGE"
        (fileTooLargeMsg env.inputSizeBytes cfg.max_input_size_mb)))
    else
      let co := converter_convert cfg.conversion_timeout_seconds env.proc
      let kill := if co.killed then [Event.killProc] else []
      match co.result with
      | .error e => ([dl, Event.render] ++ kill, some e)
      | .ok _ =>
        let t := afterConvert env job
        ([dl, Event.render] ++ kill ++ t.1, t.2)

/-- pipeline.py ConversionPipeline._write_failure_manifest: builds and
uploads the failure manifest; any exception from the upload is caught and
logged, never re-raised, so the escaping exception is always `none`. -/
def write_failure_manifest (env : Env) (job : Job)
    (errorCode errorMessage : String) : List Event × Option Exc :=
  let manifest := Manifest.failure job.job_id job.tenant_id errorCode errorMessage
  let mkey := job.output_root ++ "manifest.json"
  match env.failureManifestErr with
  | some _ => ([Event.uploadManifest job.output_bucket mkey manifest false], none)
  | none => ([Event.uploadManifest job.output_bucket mkey manifest true], none)

/-- Python str[:500]. -/
def truncate500 (s : String) : String := (s.data.take 500).asString

/-- Shared failure path of the two exception handlers in
ConversionPipeline.run: failure manifest first, then the FAILED status
update with the same code and message.  If the manifest write re-raised,
the status update would be skipped and the exception would escape; the
write never re-raises. -/
def handleFailure (env : Env) (job : Job) (evs : List Event) (c m : String) :
    List Event × Option Exc :=
  let w := write_failure_manifest env job c m
  match w.2 with
  | some e => (evs ++ w.1, some e)
  | none =>
    let call : StatusCall :=
      { status := .failed, errorCode := some c, errorMessage := some m }
    (evs ++ w.1 ++ [Event.statusUpdate call], none)

/-- The exception handlers of ConversionPipeline.run: the declared
adapter errors (ConversionError, SplitterError) keep their code and
message; any other exception becomes UNEXPECTED_ERROR with its message
truncated to 500 characters. -/
def pipelineHandler (env : Env) (job : Job) :
    List Event × Option Exc → List Event × Option Exc
  | (evs, none) => (evs, none)
  | (evs, some (.conversionError c m)) => handleFailure env job evs c m
  | (evs, some (.splitterError c m)) => handleFailure env job evs c m
  | (evs, some (.other m)) =>
    handleFailure env job evs "UNEXPECTED_ERROR" (truncate500 m)

/-- pipeline.py ConversionPipeline.run: the try block composed with its
exception handlers.  The finally block only removes the local working
directory and is elided. -/
def pipeline_run (cfg : Config) (env : Env) (job : Job) :
    List Event × Option Exc :=
  pipelineHandler env job (runBody cfg env job)

/-- The status-update call an event carries, if any. -/
def evStatusCall : Event → Option StatusCall
  | .statusUpdate c => some c
  | _ => none

/-- The update_job_status calls a trace performs, in order. -/
def statusCalls (evs : List Event) : List StatusCall :=
  evs.filterMap evStatusCall

/-- jobs.py run_with_concurrency marks the job RUNNING and then runs the
pipeline: the update_job_status calls issued for one job, in order. -/
def perJobCalls (cfg : Config) (env : Env) (job : Job) : List StatusCall :=
  { status := .running } :: statusCalls (pipeline_run cfg env job).1

/-- app/models.py CreateJobRequest.  Its declared fields are tenantId,
jobId, input and output; there is no userId field. -/
structure CreateJobRequest where
  tenantId : String
  jobId : String
  input : S3Ref
  output : S3Ref
deriving DecidableEq, Repr

/-- Dynamic attribute access on a CreateJobRequest for string-valued
names, as pydantic resolves it: the declared string fields and nothing
else (input and output are S3Ref-valued and are never read by the
endpoint). -/
def requestStrAttr (r : CreateJobRequest) (name : String) : Option String :=
  if name = "tenantId" then some r.tenantId
  else if name = "jobId" then some r.jobId
  else none

/-- app/models.py CreateJobResponse. -/
structure CreateJobResponse where
  jobId : String
  status : JobStatus
deriving DecidableEq, Repr

/-- api.py build_input_key. -/
def build_input_key (tenant_id user_id job_id : String) : String :=
  "tenants/" ++ tenant_id ++ "/users/" ++ user_id ++ "/jobs/" ++ job_id ++
    "/input/deck.pptx"

/-- api.py build_output_prefix (Lean name build_output_root). -/
def build_output_root (job_id : String) : String :=
  "conversions/" ++ job_id ++ "/"

/-- api.py POST /v1/jobs handler create_job.  The handler first evaluates
build_input_key(request.tenantId, request.userId, request.jobId); the
attribute reads happen left to right, and userId is not a declared field
of CreateJobRequest.  Afterwards (were that read to succeed) it would
return the existing job's status for a duplicate id, or call
JobManager.create_job and schedule the background conversion task. -/
def api_create_job (st : JobStore) (r : CreateJobRequest) :
    JobStore × Except PyErr CreateJobResponse :=
  match requestStrAttr r "tenantId" with
  | none => (st, .error (.attributeError "tenantId"))
  | some t =>
    match requestStrAttr r "userId" with
    | none => (st, .error (.attributeError "userId"))
    | some u =>
      match requestStrAttr r "jobId" with
      | none => (st, .error (.attributeError "jobId"))
      | some j =>
        let input_key := build_input_key t u j
        let oroot := build_output_root j
        match st r.jobId with
        | some existing =>
          (st, .ok { jobId := existing.job_id, status := existing.status })
        | none =>
          match create_job st j t u input_key oroot with
          | (st1, .ok job) => (st1, .ok { jobId := job.job_id, status := .queued })
          | (st1, .error e) => (st1, .error e)

/-- app/models.py GetJobResponse. -/
structure GetJobResponse where
  jobId : String
  userId : String
  status : JobStatus
  manifest : Option S3Ref
deriving DecidableEq, Repr

/-- Possible results of an HTTP handler: a response body, an
HTTPException with a status code and detail, or an uncaught Python
exception, which FastAPI turns into an internal server error. -/
inductive HttpOutcome (α : Type) where
  | ok (body : α)
  | httpException (status : Nat) (detail : String)
  | internalError (e : PyErr)
deriving DecidableEq, Repr

/-- Dynamic attribute access on a Job for string-valued names: every
declared string field of models.py Job.  Job declares no user_id
field. -/
def jobStrAttr (job : Job) (name : String) : Option String :=
  if name = "job_id" then some job.job_id
  else if name = "tenant_id" then some job.tenant_id
  else if name = "input_bucket" then some job.input_bucket
  else if name = "input_key" then some job.input_key
  else if name = "output_bucket" then some job.output_bucket
  else if name = "output_prefix" then some job.output_root
  else none

/-- Dynamic attribute access on config.py Settings for its string-valued
fields; Settings declares no s3_bucket field. -/
def settingsStrAttr (name : String) : Option String :=
  if name = "service_name" then some "pptx-converter"
  else if name = "host" then some "0.0.0.0"
  else if name = "log_level" then some "INFO"
  else if name = "temp_dir" then some "/tmp/converter"
  else if name = "libreoffice_bin" then some "soffice"
  else if name = "aws_region" then some "us-east-2"
  else none

/-- api.py GET /v1/jobs handler get_job: 404 when the id is absent;
otherwise it reads job.user_id (not a declared Job field) to compare it
with the caller identifier, and would then build the manifest reference
from settings.s3_bucket (not a declared Settings field) when the job is
terminal. -/
def api_get_job (st : JobStore) (job_id userId : String) :
    HttpOutcome GetJobResponse :=
  match st job_id with
  | none => .httpException 404 "Job not found"
  | some job =>
    match jobStrAttr job "user_id" with
    | none => .internalError (.attributeError "user_id")
    | some uid =>
      if uid ≠ userId then .httpException 404 "Job not found"
      else
        if job.status = .succeeded ∨ job.status = .failed then
          match settingsStrAttr "s3_bucket" with
          | none => .internalError (.attributeError "s3_bucket")
          | some b =>
            let ref : S3Ref := { bucket := b, key := job.output_root ++ "manifest.json" }
            .ok { jobId := job.job_id, userId := uid, status := job.status,
                  manifest := some ref }
        else
          .ok { jobId := job.job_id, userId := uid, status := job.status,
                manifest := none }

/-- Phase of one submitted job's task in the admission gate
(jobs.py run_with_concurrency): waiting on the semaphore, holding a slot
(the job is marked RUNNING and its pipeline executes while the slot is
held), or finished (slot released). -/
inductive Phase where
  | waiting
  | holding
  | done
deriving DecidableEq, Repr

/-- One scheduler step of the admission gate over the phases of the
submitted jobs: asyncio.Semaphore(max_concurrency) lets a waiting task
acquire a slot only when fewer than N slots are held, and a holding task
may complete, releasing its slot.  Admission order is whatever the wait
mechanism yields, so any waiting task may be the one admitted. -/
inductive GateStep (N : Nat) : List Phase → List Phase → Prop
  | acquire (l : List Phase) (i : Nat) (hi : i < l.length)
      (hw : l[i] = Phase.waiting) (hcap : l.count Phase.holding < N) :
      GateStep N l (l.set i Phase.holding)
  | finish (l : List Phase) (i : Nat) (hi : i < l.length)
      (hh : l[i] = Phase.holding) :
      GateStep N l (l.set i Phase.done)

/-- Steps of the gate in which no task finishes: only semaphore
acquisitions happen (the instant right after simultaneous submission,
before any pipeline completes). -/
inductive AdmitStep (N : Nat) : List Phase → List Phase → Prop
  | acquire (l : List Phase) (i : Nat) (hi : i < l.length)
      (hw : l[i] = Phase.waiting) (hcap : l.count Phase.holding < N) :
      AdmitStep N l (l.set i Phase.holding)

/-- The codes carried by declared adapter errors, as raised in
converter.py, splitter.py and pipeline.py, are never the empty string;
other exceptions carry no code. -/
def excCodeNonempty : Exc → Prop
  | .conversionError c _ => c ≠ ""
  | .splitterError c _ => c ≠ ""
  | .other _ => True

/-- The upload events the step D loop performs when no upload raises:
`k` pages starting after `i` already-uploaded ones. -/
def pageEvs (job : Job) : Nat → Nat → List Event
  | 0, _ => []
  | k + 1, i =>
    .uploadPage job.output_bucket (pageKey job (i + 1)) :: pageEvs job k (i + 1)

/-- The PageInfo list the step D loop accumulates when no upload
raises. -/
def pageInfosFrom (job : Job) : Nat → Nat → List PageInfo
  | 0, _ => []
  | k + 1, i =>
    { page := i + 1, key := pageKey job (i + 1) } :: pageInfosFrom job k (i + 1)

/-- Sample configuration for concrete evaluations (config.py defaults). -/
def cfgW : Config := { max_input_size_mb := 100, conversion_timeout_seconds := 180 }

/-- Sample job record for concrete evaluations. -/
def jobW : Job :=
  { job_id := "j1", tenant_id := "t1", status := .queued,
    input_bucket := "in-bkt", input_key := "in/deck.pptx",
    output_bucket := "out-bkt", output_root := "out/j1/" }

/-- Sample store holding exactly jobW. -/
def stW : JobStore := fun k => if k = "j1" then some jobW else none

/-- Store with no jobs. -/
def emptyStore : JobStore := fun _ => none

/-- Environment of a fully successful three-page run. -/
def envOkW : Env :=
  { downloadErr := none, inputSizeBytes := 1048576,
    proc := .exited 0 "" none, pdf := .pages 3 none,
    pageUploadErr := fun _ => none, successManifestErr := none,
    failureManifestErr := none }

/-- Environment whose downloaded input is larger than the limit. -/
def envTooLargeW : Env := { envOkW with inputSizeBytes := 200 * 1048576 }

/-- Environment whose LibreOffice invocation times out. -/
def envTimeoutW : Env := { envOkW with proc := .timeout }

/-- Environment whose download raises an Exception with an empty str. -/
def envEmptyMsgW : Env := { envOkW with downloadErr := some "" }

/-- Environment of a run that fails the size check and whose
failure-manifest upload also raises. -/
def envTooLargeNoManifestW : Env :=
  { envTooLargeW with failureManifestErr := some "s3 down" }

/-- Sample creation request. -/
def reqW : CreateJobRequest :=
  { tenantId := "t1", jobId := "j1",
    input := { bucket := "in-bkt", key := "k" },
    output := { bucket := "out-bkt", key := "o/" } }

@[simp] theorem statusCalls_nil : statusCalls [] = [] := rfl

@[simp] theorem statusCalls_append (a b : List Event) :
    statusCalls (a ++ b) = statusCalls a ++ statusCalls b := by
  simp [statusCalls]

@[simp] theorem statusCalls_cons_download (b k : String) (l : List Event) :
    statusCalls (Event.download b k :: l) = statusCalls l := by
  simp [statusCalls, evStatusCall]

@[simp] theorem statusCalls_cons_render (l : List Event) :
    statusCalls (Event.render :: l) = statusCalls l := by
  simp [statusCalls, evStatusCall]

@[simp] theorem statusCalls_cons_killProc (l : List Event) :
    statusCalls (Event.killProc :: l) = statusCalls l := by
  simp [statusCalls, evStatusCall]

@[simp] theorem statusCalls_cons_split (l : List Event) :
    statusCalls (Event.split :: l) = statusCalls l := by
  simp [statusCalls, evStatusCall]

@[simp] theorem statusCalls_cons_uploadPage (b k : String) (l : List Event) :
    statusCalls (Event.uploadPage b k :: l) = statusCalls l := by
  simp [statusCalls, evStatusCall]

@[simp] theorem statusCalls_cons_uploadManifest (b k : String) (m : Manifest)
    (ok : Bool) (l : List Event) :
    statusCalls (Event.uploadManifest b k m ok :: l) = statusCalls l := by
  simp [statusCalls, evStatusCall]

@[simp] theorem statusCalls_cons_statusUpdate (c : StatusCall) (l : List Event) :
    statusCalls (Event.statusUpdate c :: l) = c :: statusCalls l := by
  simp [statusCalls, evStatusCall]

theorem uploadPages_statusCalls (env : Env) (job : Job) :
    ∀ k i, statusCalls (uploadPages env job k i).1 = [] := by
  intro k
  induction k with
  | zero => intro i; simp [uploadPages]
  | succ k ih =>
    intro i
    cases h : env.pageUploadErr i with
    | some m => simp [uploadPages, h]
    | none => simp [uploadPages, h, ih (i + 1)]

theorem uploadPages_error_other (env : Env) (job : Job) :
    ∀ k i e, (uploadPages env job k i).2 = .error e → ∃ m, e = .other m := by
  intro k
  induction k with
  | zero => intro i e h; simp [uploadPages] at h
  | succ k ih =>
    intro i e h
    cases hu : env.pageUploadErr i with
    | some m =>
      simp [uploadPages, hu] at h
      exact ⟨m, h.symm⟩
    | none =>
      simp [uploadPages, hu] at h
      cases h2 : (uploadPages env job k (i + 1)).2 with
      | error e2 =>
        rw [h2] at h
        simp [Except.map] at h
        subst h
        exact ih (i + 1) e2 h2
      | ok ps =>
        rw [h2] at h
        simp [Except.map] at h

theorem uploadPages_ok (env : Env) (job : Job)
    (h : ∀ j, env.pageUploadErr j = none) :
    ∀ k i, uploadPages env job k i = (pageEvs job k i, .ok (pageInfosFrom job k i)) := by
  intro k
  induction k with
  | zero => intro i; rfl
  | succ k ih =>
    intro i
    simp [uploadPages, h i, pageEvs, pageInfosFrom, ih (i + 1), Except.map]

theorem pageInfosFrom_length (job : Job) :
    ∀ k i, (pageInfosFrom job k i).length = k := by
  intro k
  induction k with
  | zero => intro i; rfl
  | succ k ih => intro i; simp [pageInfosFrom, ih]

theorem pageInfosFrom_get (job : Job) :
    ∀ k i t, t < k → (pageInfosFrom job k i)[t]?
      = some { page := i + t + 1, key := pageKey job (i + t + 1) } := by
  intro k
  induction k with
  | zero => intro i t ht; exact absurd ht (Nat.not_lt_zero t)
  | succ k ih =>
    intro i t ht
    cases t with
    | zero => simp [pageInfosFrom]
    | succ t =>
      have harith : i + 1 + t + 1 = i + (t + 1) + 1 := by omega
      have := ih (i + 1) t (by omega)
      rw [harith] at this
      simp [pageInfosFrom, this]

theorem wfm_eq (env : Env) (job : Job) (c m : String) :
    write_failure_manifest env job c m =
      ([Event.uploadManifest job.output_bucket (job.output_root ++ "manifest.json")
          (Manifest.failure job.job_id job.tenant_id c m)
          env.failureManifestErr.isNone], none) := by
  cases h : env.failureManifestErr <;> simp [write_failure_manifest, h]

theorem handleFailure_eq (env : Env) (job : Job) (evs : List Event) (c m : String) :
    handleFailure env job evs c m =
      (evs ++
        [Event.uploadManifest job.output_bucket (job.output_root ++ "manifest.json")
           (Manifest.failure job.job_id job.tenant_id c m)
           env.failureManifestErr.isNone,
         Event.statusUpdate { status := .failed, errorCode := some c, errorMessage := some m }],
       none) := by
  simp [handleFailure, wfm_eq]

theorem converter_error_code (t : Nat) (p : ProcResult) (e : Exc)
    (h : (converter_convert t p).result = .error e) : excCodeNonempty e := by
  cases p with
  | timeout =>
    simp [converter_convert] at h
    simp [← h, excCodeNonempty]
  | exited rc stderrText statErr =>
    by_cases hrc : rc ≠ 0
    · simp [converter_convert, hrc] at h
      simp [← h, excCodeNonempty]
    · cases statErr with
      | some m =>
        simp [converter_convert, hrc] at h
        simp [← h, excCodeNonempty]
      | none => simp [converter_convert, hrc] at h

theorem splitter_error_code (pdf : PdfRead) (e : Exc)
    (h : splitter_split pdf = .error e) : excCodeNonempty e := by
  cases pdf with
  | readError m =>
    simp [splitter_split] at h
    simp [← h, excCodeNonempty]
  | pages n writeError =>
    by_cases hn : n = 0
    · simp [splitter_split, hn] at h
      simp [← h, excCodeNonempty]
    · cases writeError with
      | some m =>
        simp [splitter_split, hn] at h
        simp [← h, excCodeNonempty]
      | none => simp [splitter_split, hn] at h

theorem afterSplit_shape (env : Env) (job : Job) (n : Nat) (paths : List String) :
    ((afterSplit env job n paths).2 = none ∧
      statusCalls (afterSplit env job n paths).1
        = [{ status := .succeeded, pageCount := some n }]) ∨
    (∃ e, (afterSplit env job n paths).2 = some e ∧
      statusCalls (afterSplit env job n paths).1 = [] ∧ excCodeNonempty e) := by
  cases hu : (uploadPages env job paths.length 0).2 with
  | error e =>
    right
    refine ⟨e, by simp [afterSplit, hu], ?_, ?_⟩
    · simp [afterSplit, hu, uploadPages_statusCalls]
    · obtain ⟨m, hm⟩ := uploadPages_error_other env job _ _ _ hu
      subst hm; trivial
  | ok ps =>
    cases hm : env.successManifestErr with
    | some msg =>
      right
      refine ⟨.other msg, by simp [afterSplit, hu, hm], ?_, trivial⟩
      simp [afterSplit, hu, hm, uploadPages_statusCalls]
    | none =>
      left
      refine ⟨by simp [afterSplit, hu, hm], ?_⟩
      simp [afterSplit, hu, hm, uploadPages_statusCalls]

theorem afterConvert_shape (env : Env) (job : Job) :
    ((afterConvert env job).2 = none ∧
      ∃ n, statusCalls (afterConvert env job).1
        = [{ status := .succeeded, pageCount := some n }]) ∨
    (∃ e, (afterConvert env job).2 = some e ∧
      statusCalls (afterConvert env job).1 = [] ∧ excCodeNonempty e) := by
  cases hs : splitter_split env.pdf with
  | error e =>
    right
    exact ⟨e, by simp [afterConvert, hs], by simp [afterConvert, hs],
      splitter_error_code _ _ hs⟩
  | ok r =>
    obtain ⟨n, paths⟩ := r
    rcases afterSplit_shape env job n paths with ⟨h2, hsc⟩ | ⟨e, h2, hsc, hne⟩
    · left
      refine ⟨by simp [afterConvert, hs, h2], n, ?_⟩
      simp [afterConvert, hs, hsc]
    · right
      refine ⟨e, by simp [afterConvert, hs, h2], ?_, hne⟩
      simp [afterConvert, hs, hsc]

theorem runBody_shape (cfg : Config) (env : Env) (job : Job) :
    ((runBody cfg env job).2 = none ∧
      ∃ n, statusCalls (runBody cfg env job).1
        = [{ status := .succeeded, pageCount := some n }]) ∨
    (∃ e, (runBody cfg env job).2 = some e ∧
      statusCalls (runBody cfg env job).1 = [] ∧ excCodeNonempty e) := by
  cases hd : env.downloadErr with
  | some m =>
    right
    exact ⟨.other m, by simp [runBody, hd], by simp [runBody, hd], trivial⟩
  | none =>
    by_cases hs : env.inputSizeBytes > cfg.max_input_size_mb * 1048576
    · right
      refine ⟨Exc.conversionError "FILE_TOO_LARGE"
          (fileTooLargeMsg env.inputSizeBytes cfg.max_input_size_mb),
        by simp [runBody, hd, hs], by simp [runBody, hd, hs], ?_⟩
      simp [excCodeNonempty]
    · cases hc : (converter_convert cfg.conversion_timeout_seconds env.proc).result with
      | error e =>
        right
        refine ⟨e, by simp [runBody, hd, hs, hc], ?_, converter_error_code _ _ _ hc⟩
        cases hk : (converter_convert cfg.conversion_timeout_seconds env.proc).killed <;>
          simp [runBody, hd, hs, hc, hk]
      | ok u =>
        rcases afterConvert_shape env job with ⟨h2, n, hsc⟩ | ⟨e, h2, hsc, hne⟩
        · left
          refine ⟨by simp [runBody, hd, hs, hc, h2], n, ?_⟩
          cases hk : (converter_convert cfg.conversion_timeout_seconds env.proc).killed <;>
            simp [runBody, hd, hs, hc, hk, hsc]
        · right
          refine ⟨e, by simp [runBody, hd, hs, hc, h2], ?_, hne⟩
          cases hk : (converter_convert cfg.conversion_timeout_seconds env.proc).killed <;>
            simp [runBody, hd, hs, hc, hk, hsc]

theorem pipeline_run_shape (cfg : Config) (env : Env) (job : Job) :
    (∃ n, (pipeline_run cfg env job).2 = none ∧
      statusCalls (pipeline_run cfg env job).1
        = [{ status := .succeeded, pageCount := some n }]) ∨
    (∃ c m, (pipeline_run cfg env job).2 = none ∧
      statusCalls (pipeline_run cfg env job).1
        = [{ status := .failed, errorCode := some c, errorMessage := some m }] ∧
      c ≠ "") := by
  rcases hrb : runBody cfg env job with ⟨evs, exc⟩
  have hsh := runBody_shape cfg env job
  rw [hrb] at hsh
  cases exc with
  | none =>
    rcases hsh with ⟨_, n, hsc⟩ | ⟨e, he, _, _⟩
    · left
      refine ⟨n, by simp [pipeline_run, hrb, pipelineHandler], ?_⟩
      simp only [pipeline_run, hrb, pipelineHandler]
      simpa using hsc
    · exact absurd he (by simp)
  | some e =>
    rcases hsh with ⟨h2, _⟩ | ⟨e2, he2, hsc, hne⟩
    · exact absurd h2 (by simp)
    · have he : e = e2 := by simpa using he2
      subst he
      simp only at hsc
      cases e with
      | conversionError c m =>
        right
        refine ⟨c, m, ?_, ?_, hne⟩
        · simp [pipeline_run, hrb, pipelineHandler, handleFailure_eq]
        · simp [pipeline_run, hrb, pipelineHandler, handleFailure_eq, hsc]
      | splitterError c m =>
        right
        refine ⟨c, m, ?_, ?_, hne⟩
        · simp [pipeline_run, hrb, pipelineHandler, handleFailure_eq]
        · simp [pipeline_run, hrb, pipelineHandler, handleFailure_eq, hsc]
      | other m =>
        right
        refine ⟨"UNEXPECTED_ERROR", truncate500 m, ?_, ?_, by decide⟩
        · simp [pipeline_run, hrb, pipelineHandler, handleFailure_eq]
        · simp [pipeline_run, hrb, pipelineHandler, handleFailure_eq, hsc]

theorem update_job_status_other_key (st : JobStore) (k jid : String)
    (c : StatusCall) (now : Nat) (hne : jid ≠ k) :
    (update_job_status st k c now).1 jid = st jid := by
  cases h : st k with
  | none => simp [update_job_status, h]
  | some j => simp [update_job_status, h, hne]

theorem update_running_lookup (st : JobStore) (jid : String) (j0 : Job) (now : Nat)
    (h : st jid = some j0) :
    (update_job_status st jid { status := .running } now).1 jid
      = some { j0 with status := .running, started_at := some now } := by
  simp [update_job_status, h]

theorem update_succeeded_lookup (st : JobStore) (jid : String) (j0 : Job)
    (now n : Nat) (h : st jid = some j0) :
    (update_job_status st jid { status := .succeeded, pageCount := some n } now).1 jid
      = some { j0 with status := .succeeded, completed_at := some now, page_count := some n } := by
  simp [update_job_status, h]

theorem update_failed_lookup (st : JobStore) (jid : String) (j0 : Job) (now : Nat)
    (c m : String) (h : st jid = some j0) (hc : c ≠ "") :
    (update_job_status st jid
        { status := .failed, errorCode := some c, errorMessage := some m } now).1 jid
      = some { j0 with status := .failed, completed_at := some now, error_code := some c, error_message := if m = "" then j0.error_message else some m } := by
  by_cases hm : m = "" <;> simp [update_job_status, h, hc, hm]

theorem splitter_ok_length (pdf : PdfRead) (n : Nat) (paths : List String)
    (h : splitter_split pdf = .ok (n, paths)) : paths.length = n := by
  cases pdf with
  | readError m => simp [splitter_split] at h
  | pages j we =>
    by_cases hj : j = 0
    · simp [splitter_split, hj] at h
    · cases we with
      | some m => simp [splitter_split, hj] at h
      | none =>
        simp [splitter_split, hj] at h
        obtain ⟨hn, hp⟩ := h
        subst hn
        simp [← hp]

theorem converter_ok_not_killed (t : Nat) (p : ProcResult)
    (h : (converter_convert t p).result = .ok ()) :
    (converter_convert t p).killed = false := by
  cases p with
  | timeout => simp [converter_convert] at h
  | exited rc stderrText statErr =>
    by_cases hrc : rc ≠ 0
    · simp [converter_convert, hrc] at h
    · cases statErr with
      | some m => simp [converter_convert, hrc] at h
      | none => simp [converter_convert, hrc]

/-- C9: On timeout the LibreOffice child process is killed and a
ConversionError with code CONVERSION_TIMEOUT is raised; on nonzero exit
a ConversionError with code CONVERSION_FAILED is raised carrying exactly
the first 500 characters of the process's stderr (all of it when it is
shorter). -/
theorem converter_timeout_and_nonzero_exit (t : Nat) (p : ProcResult) :
    (p = .timeout →
      converter_convert t p =
        { killed := true,
          result := .error (.conversionError "CONVERSION_TIMEOUT"
            ("Conversion timed out after " ++ toString t ++ " seconds")) }) ∧
    (∀ rc stderrText statErr, p = .exited rc stderrText statErr → rc ≠ 0 →
      converter_convert t p =
        { killed := false,
          result := .error (.conversionError "CONVERSION_FAILED"
            ("LibreOffice exited with code " ++ toString rc ++ ": " ++
              stderrExcerpt stderrText)) } ∧
      (stderrExcerpt stderrText).length ≤ 500 ∧
      (stderrExcerpt stderrText).data = stderrText.data.take 500) := by
  constructor
  · intro hp; subst hp; rfl
  · intro rc stderrText statErr hp hrc
    subst hp
    refine ⟨by simp [converter_convert, hrc], ?_, ?_⟩
    · unfold stderrExcerpt
      by_cases h : stderrText.length > 500
      · rw [if_pos h, List.length_asString, List.length_take]
        omega
      · rw [if_neg h]
        omega
    · unfold stderrExcerpt
      by_cases h : stderrText.length > 500
      · rw [if_pos h]
        exact List.toList_asString _
      · rw [if_neg h]
        have hlen : stderrText.data.length ≤ 500 := Nat.le_of_not_lt h
        exact (List.take_of_length_le hlen).symm

/-- C9 witness: concrete timeout and nonzero-exit invocations. -/
theorem converter_timeout_and_nonzero_exit_witness :
    converter_convert 180 ProcResult.timeout =
      { killed := true,
        result := .error (.conversionError "CONVERSION_TIMEOUT"
          ("Conversion timed out after " ++ toString 180 ++ " seconds")) } ∧
    converter_convert 180 (ProcResult.exited 1 "boom" none) =
      { killed := false,
        result := .error (.conversionError "CONVERSION_FAILED"
          ("LibreOffice exited with code " ++ toString (1 : Int) ++ ": " ++
            stderrExcerpt "boom")) } :=
  ⟨(converter_timeout_and_nonzero_exit 180 .timeout).1 rfl,
   ((converter_timeout_and_nonzero_exit 180 (.exited 1 "boom" none)).2
      1 "boom" none rfl (by decide)).1⟩

/-- C4: For every fresh job identifier the creation path raises and
stores nothing: the endpoint reads request.userId, which is not a
declared field of CreateJobRequest, so the handler raises AttributeError
with the store unchanged; and a direct JobManager.create_job call on a
fresh id constructs a Job without the required input_bucket and
output_bucket fields, so pydantic validation fails and the store is
unchanged. -/
theorem create_path_always_raises (st : JobStore) (r : CreateJobRequest)
    (tenant_id user_id input_key output_root : String)
    (hfresh : st r.jobId = none) :
    api_create_job st r = (st, .error (.attributeError "userId")) ∧
    create_job st r.jobId tenant_id user_id input_key output_root
      = (st, .error (.validationError ["input_bucket", "output_bucket"])) := by
  constructor
  · simp [api_create_job, requestStrAttr]
  · simp [create_job, hfresh, pydanticJob, missingJobFields]

/-- C4 witness: creating job j1 against the empty store. -/
theorem create_path_always_raises_witness :
    emptyStore reqW.jobId = none ∧
    api_create_job emptyStore reqW = (emptyStore, .error (.attributeError "userId")) ∧
    create_job emptyStore reqW.jobId "t1" "u1" "ik" "out/"
      = (emptyStore, .error (.validationError ["input_bucket", "output_bucket"])) :=
  ⟨rfl,
   (create_path_always_raises emptyStore reqW "t1" "u1" "ik" "out/" rfl).1,
   (create_path_always_raises emptyStore reqW "t1" "u1" "ik" "out/" rfl).2⟩

/-- C3 (code defect): duplicate submission is not idempotent because
creation never succeeds — every POST raises AttributeError on
request.userId before reaching the duplicate check, so the second call
with the same id returns the same error as the first, no status, and no
record is ever created; the registry-level duplicate path is unreachable
because a direct create_job also raises and stores nothing. -/
theorem duplicate_submission_not_idempotent :
    api_create_job emptyStore reqW = (emptyStore, .error (.attributeError "userId")) ∧
    api_create_job (api_create_job emptyStore reqW).1 reqW
      = (emptyStore, .error (.attributeError "userId")) ∧
    (api_create_job emptyStore reqW).1 "j1" = none ∧
    (create_job emptyStore "j1" "t1" "u1" "ik" "out/").1 "j1" = none := by
  refine ⟨rfl, rfl, rfl, rfl⟩

/-- C8 (code defect): querying an existing job with a caller that is not
its owner does not return the not-found response of an absent id: Job
declares no user_id field, so the handler raises AttributeError (an
internal server error) for every existing job, which is distinguishable
from the 404 returned for a missing id. -/
theorem owner_mismatch_distinguishable_from_absent :
    api_get_job stW "j1" "someone-else" = .internalError (.attributeError "user_id") ∧
    api_get_job stW "absent-id" "someone-else" = .httpException 404 "Job not found" ∧
    api_get_job stW "j1" "someone-else" ≠ api_get_job stW "absent-id" "someone-else" := by
  refine ⟨rfl, rfl, by decide⟩

/-- C1: When the pipeline run raises a declared adapter error
(ConversionError or SplitterError), the failure manifest carrying that
error's code and message is uploaded to output_prefix + manifest.json
strictly before the job is marked FAILED with the same code and message;
and when the failure-manifest upload itself raises, that secondary
failure is only logged — the status update still happens, the stored
record still carries the original code and message, and nothing is
re-raised from the run. -/
theorem declared_error_manifest_before_failed (cfg : Config) (env : Env)
    (job : Job) (st : JobStore) (j0 : Job) (c m : String) (e : Exc)
    (he : (runBody cfg env job).2 = some e)
    (hdecl : e = .conversionError c m ∨ e = .splitterError c m)
    (hc : c ≠ "") (hm : m ≠ "")
    (hj : st job.job_id = some j0) :
    (pipeline_run cfg env job).1
      = (runBody cfg env job).1 ++
        [Event.uploadManifest job.output_bucket (job.output_root ++ "manifest.json")
           (Manifest.failure job.job_id job.tenant_id c m)
           env.failureManifestErr.isNone,
         Event.statusUpdate { status := .failed, errorCode := some c, errorMessage := some m }] ∧
    (pipeline_run cfg env job).2 = none ∧
    applyCalls st job.job_id 0 (statusCalls (pipeline_run cfg env job).1) job.job_id
      = some { j0 with status := .failed, completed_at := some 0, error_code := some c, error_message := some m } := by
  rcases runBody_shape cfg env job with ⟨h2, _⟩ | ⟨e2, he2, hsc, hne⟩
  · rw [he] at h2; cases h2
  · have he3 : e2 = e := by rw [he] at he2; exact Option.some.inj he2.symm
    subst he3
    rcases hrb : runBody cfg env job with ⟨evs, exc⟩
    rw [hrb] at he hsc
    simp only at he hsc
    subst he
    have hfields :
        (pipeline_run cfg env job).1
          = evs ++
            [Event.uploadManifest job.output_bucket (job.output_root ++ "manifest.json")
               (Manifest.failure job.job_id job.tenant_id c m)
               env.failureManifestErr.isNone,
             Event.statusUpdate { status := .failed, errorCode := some c, errorMessage := some m }] ∧
        (pipeline_run cfg env job).2 = none := by
      rcases hdecl with rfl | rfl
      · constructor
        · simp [pipeline_run, hrb, pipelineHandler, handleFailure_eq]
        · simp [pipeline_run, hrb, pipelineHandler, handleFailure_eq]
      · constructor
        · simp [pipeline_run, hrb, pipelineHandler, handleFailure_eq]
        · simp [pipeline_run, hrb, pipelineHandler, handleFailure_eq]
    obtain ⟨htr, hnone⟩ := hfields
    refine ⟨by simp [htr, hrb], hnone, ?_⟩
    rw [htr]
    simp only [statusCalls_append, hsc, statusCalls_cons_uploadManifest,
      statusCalls_cons_statusUpdate, statusCalls_nil, List.nil_append]
    simp only [applyCalls]
    rw [update_failed_lookup st job.job_id j0 0 c m hj hc]
    simp [hm]

/-- C1 witness: an oversized input whose failure-manifest upload itself
fails; the job record still ends FAILED with the FILE_TOO_LARGE code and
message. -/
theorem declared_error_manifest_before_failed_witness :
    (runBody cfgW envTooLargeNoManifestW jobW).2
      = some (.conversionError "FILE_TOO_LARGE" (fileTooLargeMsg (200 * 1048576) 100)) ∧
    applyCalls stW "j1" 0 (statusCalls (pipeline_run cfgW envTooLargeNoManifestW jobW).1) "j1"
      = some { jobW with status := .failed, completed_at := some 0, error_code := some "FILE_TOO_LARGE", error_message := some (fileTooLargeMsg (200 * 1048576) 100) } :=
  ⟨rfl,
   (declared_error_manifest_before_failed cfgW envTooLargeNoManifestW jobW stW jobW
      "FILE_TOO_LARGE" (fileTooLargeMsg (200 * 1048576) 100)
      (.conversionError "FILE_TOO_LARGE" (fileTooLargeMsg (200 * 1048576) 100))
      rfl (Or.inl rfl) (by decide) (by decide) rfl).2.2⟩

/-- C7: When the downloaded input exceeds max_input_size_mb, FILE_TOO_LARGE
is raised by the size check before the render engine is invoked: the
trace contains only the download, the failure-manifest upload and the
FAILED status update — no render, no split, no page upload under the
destination output_prefix — and the job record ends FAILED with code
FILE_TOO_LARGE. -/
theorem file_too_large_fails_fast (cfg : Config) (env : Env) (job : Job)
    (st : JobStore) (j0 : Job)
    (hd : env.downloadErr = none)
    (hs : env.inputSizeBytes > cfg.max_input_size_mb * 1048576)
    (hj : st job.job_id = some j0) :
    (pipeline_run cfg env job).1
      = [Event.download job.input_bucket job.input_key,
         Event.uploadManifest job.output_bucket (job.output_root ++ "manifest.json")
           (Manifest.failure job.job_id job.tenant_id "FILE_TOO_LARGE"
             (fileTooLargeMsg env.inputSizeBytes cfg.max_input_size_mb))
           env.failureManifestErr.isNone,
         Event.statusUpdate { status := .failed, errorCode := some "FILE_TOO_LARGE", errorMessage := some (fileTooLargeMsg env.inputSizeBytes cfg.max_input_size_mb) }] ∧
    Event.render ∉ (pipeline_run cfg env job).1 ∧
    Event.split ∉ (pipeline_run cfg env job).1 ∧
    (∀ b k, Event.uploadPage b k ∉ (pipeline_run cfg env job).1) ∧
    ∃ j1, applyCalls st job.job_id 0 (statusCalls (pipeline_run cfg env job).1) job.job_id = some j1 ∧
      j1.status = .failed ∧ j1.error_code = some "FILE_TOO_LARGE" := by
  have htr :
      (pipeline_run cfg env job).1
        = [Event.download job.input_bucket job.input_key,
           Event.uploadManifest job.output_bucket (job.output_root ++ "manifest.json")
             (Manifest.failure job.job_id job.tenant_id "FILE_TOO_LARGE"
               (fileTooLargeMsg env.inputSizeBytes cfg.max_input_size_mb))
             env.failureManifestErr.isNone,
           Event.statusUpdate { status := .failed, errorCode := some "FILE_TOO_LARGE", errorMessage := some (fileTooLargeMsg env.inputSizeBytes cfg.max_input_size_mb) }] := by
    simp [pipeline_run, runBody, hd, hs, pipelineHandler, handleFailure_eq]
  refine ⟨htr, ?_, ?_, ?_, ?_⟩
  · rw [htr]; simp
  · rw [htr]; simp
  · intro b k; rw [htr]; simp
  · have hsc2 : statusCalls (pipeline_run cfg env job).1
        = [{ status := .failed, errorCode := some "FILE_TOO_LARGE", errorMessage := some (fileTooLargeMsg env.inputSizeBytes cfg.max_input_size_mb) }] := by
      rw [htr]; simp
    rw [hsc2]
    simp only [applyCalls]
    refine ⟨_, update_failed_lookup st job.job_id j0 0 _ _ hj (by decide), rfl, rfl⟩

/-- C7 witness: a 200 MB input against the 100 MB default limit. -/
theorem file_too_large_fails_fast_witness :
    envTooLargeW.downloadErr = none ∧
    envTooLargeW.inputSizeBytes > cfgW.max_input_size_mb * 1048576 ∧
    Event.render ∉ (pipeline_run cfgW envTooLargeW jobW).1 :=
  ⟨rfl, by decide,
   (file_too_large_fails_fast cfgW envTooLargeW jobW stW jobW rfl (by decide) rfl).2.1⟩

/-- C2: On a fully successful run the success manifest is uploaded to
output_prefix + manifest.json, its pageCount is the count n returned by
the splitter, its pages list also has length n, and the entry at index t
is page t+1 with storage key output_prefix + pages/ + zero-padded page
number + .pdf — contiguous pages starting at 1. -/
theorem success_manifest_contents (cfg : Config) (env : Env) (job : Job)
    (n : Nat) (paths : List String)
    (hd : env.downloadErr = none)
    (hs : ¬ env.inputSizeBytes > cfg.max_input_size_mb * 1048576)
    (hconv : (converter_convert cfg.conversion_timeout_seconds env.proc).result = .ok ())
    (hsplit : splitter_split env.pdf = .ok (n, paths))
    (hup : ∀ i, env.pageUploadErr i = none)
    (hman : env.successManifestErr = none) :
    (pipeline_run cfg env job).1
      = [Event.download job.input_bucket job.input_key, Event.render, Event.split] ++
        pageEvs job paths.length 0 ++
        [Event.uploadManifest job.output_bucket (job.output_root ++ "manifest.json")
           (Manifest.success job.job_id job.tenant_id n (pageInfosFrom job paths.length 0)) true,
         Event.statusUpdate { status := .succeeded, pageCount := some n }] ∧
    paths.length = n ∧
    (pageInfosFrom job paths.length 0).length = n ∧
    (∀ t, t < n → (pageInfosFrom job paths.length 0)[t]?
      = some { page := t + 1, key := job.output_root ++ "pages/" ++ pad4 (t + 1) ++ ".pdf" }) := by
  have hlen := splitter_ok_length env.pdf n paths hsplit
  have hkill := converter_ok_not_killed _ _ hconv
  have hupok := uploadPages_ok env job hup paths.length 0
  refine ⟨?_, hlen, ?_, ?_⟩
  · simp [pipeline_run, runBody, hd, hs, hconv, hkill, pipelineHandler,
      afterConvert, hsplit, afterSplit, hupok, hman]
  · rw [pageInfosFrom_length]; exact hlen
  · intro t ht
    have hget := pageInfosFrom_get job paths.length 0 t (by omega)
    simpa [pageKey] using hget

/-- C2 witness: a three-page success run. -/
theorem success_manifest_contents_witness :
    splitter_split envOkW.pdf = .ok (3, ["0001.pdf", "0002.pdf", "0003.pdf"]) ∧
    (∀ t, t < 3 →
      (pageInfosFrom jobW (["0001.pdf", "0002.pdf", "0003.pdf"] : List String).length 0)[t]?
        = some { page := t + 1, key := jobW.output_root ++ "pages/" ++ pad4 (t + 1) ++ ".pdf" }) :=
  ⟨rfl,
   (success_manifest_contents cfgW envOkW jobW 3 ["0001.pdf", "0002.pdf", "0003.pdf"]
      rfl (by decide) rfl rfl (fun i => rfl) rfl).2.2.2⟩

/-- C6 (amended): once the per-job call sequence (RUNNING from the gate,
then the pipeline's single terminal update) has been applied to a fresh
record, a succeeded record has page_count set and both error fields
unset, and a failed record has a nonempty error_code and no page_count;
its error_message equals the failure's message when that message is
nonempty and stays unset when the message is the empty string (possible
only for UNEXPECTED_ERROR), because update_job_status tests Python
truthiness rather than None. -/
theorem terminal_record_fields (cfg : Config) (env : Env) (job : Job)
    (st : JobStore) (j0 : Job)
    (hj : st job.job_id = some j0)
    (hec : j0.error_code = none) (hem : j0.error_message = none)
    (hpc : j0.page_count = none) :
    ∃ j1, applyCalls st job.job_id 0 (perJobCalls cfg env job) job.job_id = some j1 ∧
      ((∃ n, j1.status = .succeeded ∧ j1.page_count = some n ∧
          j1.error_code = none ∧ j1.error_message = none) ∨
       (∃ c m, j1.status = .failed ∧ j1.error_code = some c ∧ c ≠ "" ∧
          j1.page_count = none ∧
          j1.error_message = (if m = "" then none else some m) ∧
          statusCalls (pipeline_run cfg env job).1
            = [{ status := .failed, errorCode := some c, errorMessage := some m }])) := by
  have hrun : (update_job_status st job.job_id { status := .running } 0).1 job.job_id
      = some { j0 with status := .running, started_at := some 0 } :=
    update_running_lookup st job.job_id j0 0 hj
  rcases pipeline_run_shape cfg env job with ⟨n, _, hsc⟩ | ⟨c, m, _, hsc, hc⟩
  · refine ⟨{ j0 with status := .succeeded, started_at := some 0, completed_at := some 1, page_count := some n }, ?_, ?_⟩
    · simp only [perJobCalls, hsc, applyCalls]
      exact update_succeeded_lookup _ job.job_id _ 1 n hrun
    · refine Or.inl ⟨n, rfl, rfl, ?_, ?_⟩
      · exact hec
      · exact hem
  · refine ⟨{ j0 with status := .failed, started_at := some 0, completed_at := some 1, error_code := some c, error_message := if m = "" then j0.error_message else some m }, ?_, ?_⟩
    · simp only [perJobCalls, hsc, applyCalls]
      exact update_failed_lookup _ job.job_id _ 1 c m hrun hc
    · refine Or.inr ⟨c, m, rfl, rfl, hc, ?_, ?_, hsc⟩
      · exact hpc
      · by_cases hm : m = "" <;> simp [hm, hem]

/-- C6 witness (for the amended statement): the RUNNING-then-terminal
sequence of a timed-out conversion, applied to the fresh record. -/
theorem terminal_record_fields_witness :
    ∃ j1, applyCalls stW "j1" 0 (perJobCalls cfgW envTimeoutW jobW) "j1" = some j1 ∧
      ((∃ n, j1.status = .succeeded ∧ j1.page_count = some n ∧
          j1.error_code = none ∧ j1.error_message = none) ∨
       (∃ c m, j1.status = .failed ∧ j1.error_code = some c ∧ c ≠ "" ∧
          j1.page_count = none ∧
          j1.error_message = (if m = "" then none else some m) ∧
          statusCalls (pipeline_run cfgW envTimeoutW jobW).1
            = [{ status := .failed, errorCode := some c, errorMessage := some m }])) :=
  terminal_record_fields cfgW envTimeoutW jobW stW jobW rfl rfl rfl rfl

/-- C6 counterexample: the claim as stated is false on the code — a job
can end FAILED with error_code populated but error_message unset.  When
the download raises an Exception whose str is empty, the
unexpected-error path calls update_job_status with message "" and the
truthiness test skips storing it. -/
theorem failed_without_error_message :
    applyCalls stW "j1" 0 (perJobCalls cfgW envEmptyMsgW jobW) "j1"
      = some { jobW with status := .failed, started_at := some 0, completed_at := some 1, error_code := some "UNEXPECTED_ERROR" } ∧
    ({ jobW with status := .failed, started_at := some 0, completed_at := some 1, error_code := some "UNEXPECTED_ERROR" } : Job).error_message = none :=
  ⟨rfl, rfl⟩

/-- C5: Status is monotonic along the call sequence the system issues
for one job — the admission gate's RUNNING update followed by the
pipeline's single terminal update: once the stored status is SUCCEEDED
or FAILED it never changes at any later point of the sequence; and
update_job_status calls addressed to other job identifiers never change
this job's record. -/
theorem status_monotonic (cfg : Config) (env : Env) (job : Job)
    (st : JobStore) (j0 : Job)
    (hj : st job.job_id = some j0) (hq : j0.status = .queued) :
    (∀ i j s, i ≤ j → j ≤ (perJobCalls cfg env job).length →
      statusAfter st job.job_id (perJobCalls cfg env job) i = some s →
      (s = .succeeded ∨ s = .failed) →
      statusAfter st job.job_id (perJobCalls cfg env job) j = some s) ∧
    (∀ k c now, k ≠ job.job_id →
      (update_job_status st k c now).1 job.job_id = st job.job_id) := by
  constructor
  · intro i j s hij hjlen hs hterm
    have h0 : statusAfter st job.job_id (perJobCalls cfg env job) 0
        = some JobStatus.queued := by
      simp [statusAfter, applyCalls, hj, hq]
    have h1 : statusAfter st job.job_id (perJobCalls cfg env job) 1
        = some JobStatus.running := by
      simp only [statusAfter, perJobCalls, List.take_succ_cons, List.take_zero, applyCalls]
      rw [update_running_lookup st job.job_id j0 0 hj]
      rfl
    have hlen2 : (perJobCalls cfg env job).length = 2 := by
      rcases pipeline_run_shape cfg env job with ⟨n, _, hsc⟩ | ⟨c, m, _, hsc, _⟩ <;>
        simp [perJobCalls, hsc]
    rcases Nat.lt_or_ge i j with hlt | hge
    · exfalso
      have hi1 : i ≤ 1 := by omega
      interval_cases i
      · rw [h0] at hs
        have hqs : s = JobStatus.queued := (Option.some.inj hs).symm
        subst hqs
        rcases hterm with h | h <;> exact absurd h (by decide)
      · rw [h1] at hs
        have hrs : s = JobStatus.running := (Option.some.inj hs).symm
        subst hrs
        rcases hterm with h | h <;> exact absurd h (by decide)
    · have hij2 : i = j := Nat.le_antisymm hij hge
      subst hij2
      exact hs
  · intro k c now hk
    exact update_job_status_other_key st k job.job_id c now (Ne.symm hk)

/-- C5 witness: the timed-out run's sequence ends FAILED at position 2
and stays FAILED at position 2. -/
theorem status_monotonic_witness :
    stW "j1" = some jobW ∧
    statusAfter stW "j1" (perJobCalls cfgW envTimeoutW jobW) 2 = some JobStatus.failed :=
  ⟨rfl,
   (status_monotonic cfgW envTimeoutW jobW stW jobW rfl rfl).1 2 2 JobStatus.failed
     (Nat.le_refl 2) (by decide) (by decide) (Or.inr rfl)⟩

theorem gateStep_holding_le (N : Nat) (l l2 : List Phase)
    (h : GateStep N l l2) (hl : l.count Phase.holding ≤ N) :
    l2.count Phase.holding ≤ N := by
  cases h with
  | acquire i hi hw hcap =>
    rw [List.count_set _ _ _ _ hi]
    simp [hw]
    omega
  | finish i hi hh =>
    rw [List.count_set _ _ _ _ hi]
    simp [hh]
    omega

theorem gate_reachable_holding_le (N n0 : Nat) (l : List Phase)
    (h : Relation.ReflTransGen (GateStep N) (List.replicate n0 Phase.waiting) l) :
    l.count Phase.holding ≤ N := by
  induction h with
  | refl => simp [List.count_replicate]
  | tail hsteps hstep ih => exact gateStep_holding_le N _ _ hstep ih

theorem admitStep_conserve (N : Nat) (l l2 : List Phase) (h : AdmitStep N l l2) :
    l2.count Phase.holding = l.count Phase.holding + 1 ∧
    l2.count Phase.waiting + 1 = l.count Phase.waiting ∧
    l2.count Phase.done = l.count Phase.done := by
  cases h with
  | acquire i hi hw hcap =>
    have hwmem : Phase.waiting ∈ l := hw ▸ List.getElem_mem hi
    have hwpos : 0 < l.count Phase.waiting := List.count_pos_iff.mpr hwmem
    refine ⟨?_, ?_, ?_⟩
    · rw [List.count_set _ _ _ _ hi]
      simp [hw]
    · rw [List.count_set _ _ _ _ hi]
      simp [hw]
      omega
    · rw [List.count_set _ _ _ _ hi]
      simp [hw]

theorem admitStep_gateStep (N : Nat) (l l2 : List Phase)
    (h : AdmitStep N l l2) : GateStep N l l2 := by
  cases h with
  | acquire i hi hw hcap => exact GateStep.acquire _ i hi hw hcap

theorem admit_reach_gate_reach {N : Nat} {a l : List Phase}
    (h : Relation.ReflTransGen (AdmitStep N) a l) :
    Relation.ReflTransGen (GateStep N) a l := by
  induction h with
  | refl => exact Relation.ReflTransGen.refl
  | tail hsteps hstep ih =>
    exact Relation.ReflTransGen.tail ih (admitStep_gateStep N _ _ hstep)

theorem admit_reach_facts (N n0 : Nat) (l : List Phase)
    (h : Relation.ReflTransGen (AdmitStep N) (List.replicate n0 Phase.waiting) l) :
    l.count Phase.holding + l.count Phase.waiting = n0 := by
  induction h with
  | refl => simp [List.count_replicate]
  | tail hsteps hstep ih =>
    obtain ⟨h1, h2, h3⟩ := admitStep_conserve N _ _ hstep
    omega

theorem gate_stuck_holding_ge (N : Nat) (l : List Phase)
    (hstuck : ¬ ∃ l2, AdmitStep N l l2)
    (hw : 0 < l.count Phase.waiting) :
    N ≤ l.count Phase.holding := by
  by_contra hlt
  push_neg at hlt
  obtain ⟨i, hi, hgi⟩ := List.getElem_of_mem (List.count_pos_iff.mp hw)
  exact hstuck ⟨l.set i Phase.holding, AdmitStep.acquire l i hi hgi hlt⟩

/-- C10: In the admission gate of run_with_concurrency, at most N tasks
hold a semaphore slot (and so are executing their pipeline, with the job
in RUNNING state) at any instant reachable from a batch of submissions;
and when N+k jobs are submitted simultaneously, once the initial burst
of admissions has quiesced (no task has finished yet and no further
admission is possible), exactly N tasks are holding and k are still
waiting. -/
theorem gate_bounds (N k : Nat) :
    (∀ l, Relation.ReflTransGen (GateStep N) (List.replicate (N + k) Phase.waiting) l →
      l.count Phase.holding ≤ N) ∧
    (∀ l, Relation.ReflTransGen (AdmitStep N) (List.replicate (N + k) Phase.waiting) l →
      (¬ ∃ l2, AdmitStep N l l2) →
      l.count Phase.holding = N ∧ l.count Phase.waiting = k) := by
  constructor
  · intro l h
    exact gate_reachable_holding_le N (N + k) l h
  · intro l h hstuck
    have hsum := admit_reach_facts N (N + k) l h
    have hle : l.count Phase.holding ≤ N :=
      gate_reachable_holding_le N (N + k) l (admit_reach_gate_reach h)
    by_cases hw : 0 < l.count Phase.waiting
    · have hge := gate_stuck_holding_ge N l hstuck hw
      constructor <;> omega
    · push_neg at hw
      constructor <;> omega

/-- C10 witness: two jobs submitted against a limit of one; after the
single possible admission, one task holds the slot and one waits. -/
theorem gate_bounds_witness :
    List.count Phase.holding [Phase.holding, Phase.waiting] = 1 ∧
    List.count Phase.waiting [Phase.holding, Phase.waiting] = 1 := by
  have hstep : AdmitStep 1 (List.replicate 2 Phase.waiting) [Phase.holding, Phase.waiting] :=
    AdmitStep.acquire (List.replicate 2 Phase.waiting) 0 (by decide) (by decide) (by decide)
  have hreach := Relation.ReflTransGen.single hstep
  have hstuck : ¬ ∃ l2, AdmitStep 1 [Phase.holding, Phase.waiting] l2 := by
    rintro ⟨l2, hs⟩
    cases hs with
    | acquire i hi hw hcap => exact absurd hcap (by decide)
  exact (gate_bounds 1 1).2 [Phase.holding, Phase.waiting] hreach hstuck
